import Mathlib

/-!
Shallow embedding of `src/gpu_probe/main.rs` (the `gpu_probe` bootstrap of
LineageOS/android_hardware_google_pixel).

The program is a linear bootstrap:
  1. `android_logger::init_once(Config::default().with_tag("gpu_probe").with_min_level(Info))`
  2. `log::info!("Starting pixel gpu_probe")`
  3. `std::panic::set_hook(|msg| log::error!("{}", msg))`
  4. `libloading::Library::new("/vendor/lib64/libgpudataproducer.so").unwrap()`
  5. `library.get(b"start").unwrap()` resolving `fn() -> ()`
  6. `start()`

The embedding threads a process state (logger configuration, whether the
custom panic hook is installed, and the trace of observable events) through
each step, and is parameterised by a dynamic-linking environment `DlEnv`
saying whether the library loads, whether the symbol resolves, and whether
the vendor entry function returns.  A failed `unwrap` panics: the installed
hook logs the panic message at error severity and the process exits with
the Rust panic status 101.  `android_logger::init_once` has no failure path
(it returns unit and swallows re-initialisation), so logging setup is
modelled as infallible, exactly as the caller in `main.rs` treats it.
-/

namespace GpuProbe

/-- Log severity levels of the Rust `log` crate; `Error` is the most severe. -/
inductive Level where
  | Error
  | Warn
  | Info
  | Debug
  | Trace
deriving DecidableEq, Repr

/-- Numeric severity as in the `log` crate: a lower number is more severe. -/
def Level.severity : Level → Nat
  | .Error => 1
  | .Warn => 2
  | .Info => 3
  | .Debug => 4
  | .Trace => 5

/-- A message at level `l` passes a filter whose minimum level is `m`. -/
def Level.passes (l m : Level) : Bool := decide (l.severity ≤ m.severity)

/-- Embedding of `android_logger::Config`: an optional tag and an optional
minimum severity, both unset by default. -/
structure Config where
  tag : Option String
  minLevel : Option Level
deriving DecidableEq, Repr

/-- Embedding of `android_logger::Config::default()`. -/
def Config.default : Config := ⟨none, none⟩

/-- Embedding of `Config::with_tag`. -/
def Config.with_tag (c : Config) (t : String) : Config := { c with tag := some t }

/-- Embedding of `Config::with_min_level`. -/
def Config.with_min_level (c : Config) (l : Level) : Config := { c with minLevel := some l }

/-- Observable events of one execution of the bootstrap, in order. -/
inductive Event where
  | logLine (level : Level) (tag : String) (msg : String)
  | loadAttempt (path : String)
  | loadSuccess (path : String)
  | symbolLookup (name : String)
  | symbolResolved (name : String)
  | callEntry
  | dropLibrary (path : String)
deriving DecidableEq, Repr

/-- Outcome of `libloading::Library::new`: success, file missing, or the file
exists but cannot be mapped (architecture mismatch, missing dependencies);
the failure constructors carry the OS error description. -/
inductive LoadResult where
  | ok
  | notFound (desc : String)
  | notMappable (desc : String)
deriving DecidableEq, BEq, Repr

/-- Outcome of `Library::get(b"start")`: success, or the symbol is absent
from the library (with the dynamic-linker error description). -/
inductive SymResult where
  | ok
  | absent (desc : String)
deriving DecidableEq, BEq, Repr

/-- Dynamic-linking environment for one run: how the library load and the
symbol resolution behave on this system, and whether the vendor entry
function, if reached, ever returns. -/
structure DlEnv where
  load : LoadResult
  sym : SymResult
  entryReturns : Bool
deriving DecidableEq, Repr

/-- How the process ends: a normal or abnormal exit with a status code, or
running indefinitely inside the vendor entry function. -/
inductive Outcome where
  | exited (code : Nat)
  | running
deriving DecidableEq, Repr

/-- Process state threaded through the bootstrap: the process-wide logger
configuration (if initialised), whether the custom panic hook is installed,
and the trace of events emitted so far. -/
structure PState where
  loggerConfig : Option Config
  hookInstalled : Bool
  trace : List Event
deriving Repr

/-- Process state at entry to `main`. -/
def initialPState : PState := ⟨none, false, []⟩

/-- Emit a log line through the process-wide sink: dropped when no logger is
configured or the level is below the configured minimum, as in
`android_logger`. -/
def emitLog (s : PState) (l : Level) (msg : String) : PState :=
  match s.loggerConfig with
  | none => s
  | some c =>
    let pass := match c.minLevel with
      | none => true
      | some ml => l.passes ml
    if pass then { s with trace := s.trace ++ [.logLine l (c.tag.getD "") msg] } else s

/-- Embedding of `android_logger::init_once`: installs the configuration the
first time, silently keeps the existing one on re-initialisation, and has no
failure path. -/
def init_once (c : Config) (s : PState) : PState :=
  match s.loggerConfig with
  | some _ => s
  | none => { s with loggerConfig := some c }

/-- Embedding of `std::panic::set_hook` with the closure from `main.rs`:
after this, a panic message is logged at error severity before termination. -/
def set_hook (s : PState) : PState := { s with hookInstalled := true }

/-- Panic message produced by `Result::unwrap` on an `Err` value carrying
the description `desc`. -/
def unwrapMsg (desc : String) : String :=
  "called Result::unwrap() on an Err value: " ++ desc

/-- A panic reaching the top of the process: the installed hook (if any)
logs the message at error severity, then the process terminates with the
Rust panic exit status 101. -/
def panicFinish (s : PState) (msg : String) : List Event × Outcome :=
  let s1 := if s.hookInstalled then emitLog s .Error msg else s
  (s1.trace, .exited 101)

/-- Hardcoded path of the vendor library, from `main.rs`. -/
def LIB_PATH : String := "/vendor/lib64/libgpudataproducer.so"

/-- Hardcoded name of the vendor entry symbol, from `main.rs`; it is
resolved at type `fn() -> ()` (no arguments, no return value). -/
def ENTRY_SYMBOL : String := "start"

/-- The logging configuration built in `main.rs`:
`Config::default().with_tag("gpu_probe").with_min_level(Level::Info)`. -/
def gpuProbeConfig : Config :=
  (Config.default.with_tag "gpu_probe").with_min_level .Info

/-- Embedding of `fn main()` of `src/gpu_probe/main.rs`, line by line:
logger init, startup info line, panic-hook install, library load (unwrap),
symbol resolution (unwrap), call of the entry function.  When the entry
function returns, the end of the `unsafe` block drops the library handle and
`main` returns, exiting the process with status 0; when it never returns the
process keeps running.  Returns the emitted trace and the outcome. -/
def runMain (env : DlEnv) : List Event × Outcome :=
  let s1 := init_once gpuProbeConfig initialPState
  let s2 := emitLog s1 .Info "Starting pixel gpu_probe"
  let s3 := set_hook s2
  let s4 := { s3 with trace := s3.trace ++ [Event.loadAttempt LIB_PATH] }
  match env.load with
  | .notFound d => panicFinish s4 (unwrapMsg d)
  | .notMappable d => panicFinish s4 (unwrapMsg d)
  | .ok =>
    let s5 := { s4 with
      trace := s4.trace ++ [Event.loadSuccess LIB_PATH, Event.symbolLookup ENTRY_SYMBOL] }
    match env.sym with
    | .absent d => panicFinish s5 (unwrapMsg d)
    | .ok =>
      let s6 := { s5 with
        trace := s5.trace ++ [Event.symbolResolved ENTRY_SYMBOL, Event.callEntry] }
      if env.entryReturns then
        (s6.trace ++ [Event.dropLibrary LIB_PATH], Outcome.exited 0)
      else
        (s6.trace, Outcome.running)

/-- Embedding of the process entry point including the inputs the OS hands
every process: `fn main()` takes no arguments and `main.rs` never consults
`std::env`, so the command line and the environment variables are ignored. -/
def runProcess (_args : List String) (_envVars : List (String × String))
    (env : DlEnv) : List Event × Outcome :=
  runMain env

/-- Number of invocations of the vendor entry function recorded in a trace. -/
def countEntryCalls : List Event → Nat
  | [] => 0
  | .callEntry :: rest => countEntryCalls rest + 1
  | _ :: rest => countEntryCalls rest

/-- Number of informational log lines recorded in a trace. -/
def countInfoLines : List Event → Nat
  | [] => 0
  | .logLine .Info _ _ :: rest => countInfoLines rest + 1
  | _ :: rest => countInfoLines rest

/-- Whether a trace contains at least one error-severity log line. -/
def hasErrorLine : List Event → Bool
  | [] => false
  | .logLine .Error _ _ :: _ => true
  | _ :: rest => hasErrorLine rest

/-- Whether a trace records an invocation of the vendor entry function. -/
def hasCall : List Event → Bool
  | [] => false
  | .callEntry :: _ => true
  | _ :: rest => hasCall rest

/-- Whether a trace contains a library-load attempt that is not preceded by
the startup info line "Starting pixel gpu_probe". -/
def loadAttemptWithoutStartupLog : List Event → Bool
  | [] => false
  | .loadAttempt _ :: _ => true
  | .logLine .Info _ msg :: rest =>
      if msg = "Starting pixel gpu_probe" then false
      else loadAttemptWithoutStartupLog rest
  | _ :: rest => loadAttemptWithoutStartupLog rest

/-- Whether a trace releases the library handle and records an invocation of
the entry function afterwards (a call through a dead handle). -/
def releasedBeforeCall : List Event → Bool
  | [] => false
  | .dropLibrary _ :: rest => hasCall rest || releasedBeforeCall rest
  | _ :: rest => releasedBeforeCall rest

/-- Whether a trace releases the library handle anywhere except as its very
last event (i.e. earlier than immediately before process exit). -/
def dropNotLast : List Event → Bool
  | [] => false
  | [.dropLibrary _] => false
  | .dropLibrary _ :: _ :: _ => true
  | _ :: rest => dropNotLast rest

/-- Whether every event of a trace uses only the fixed configuration:
library path `LIB_PATH`, symbol name `ENTRY_SYMBOL`, log tag "gpu_probe". -/
def usesFixedConfig : List Event → Bool
  | [] => true
  | .logLine _ t _ :: rest => t == "gpu_probe" && usesFixedConfig rest
  | .loadAttempt p :: rest => p == LIB_PATH && usesFixedConfig rest
  | .loadSuccess p :: rest => p == LIB_PATH && usesFixedConfig rest
  | .symbolLookup n :: rest => n == ENTRY_SYMBOL && usesFixedConfig rest
  | .symbolResolved n :: rest => n == ENTRY_SYMBOL && usesFixedConfig rest
  | .callEntry :: rest => usesFixedConfig rest
  | .dropLibrary p :: rest => p == LIB_PATH && usesFixedConfig rest

/-- The three setup failure conditions of the loader: the library file is
missing, the library cannot be mapped, or the entry symbol is absent. -/
def setupFails (env : DlEnv) : Prop :=
  (∃ d, env.load = .notFound d) ∨ (∃ d, env.load = .notMappable d) ∨
    (∃ d, env.sym = .absent d)

/-- Error taxonomy of the bootstrap, as named in the design. -/
inductive Failure where
  | LoggingInitFailure
  | LibraryLoadFailure
  | SymbolResolutionFailure
deriving DecidableEq, Repr

/-- When a failure of the taxonomy occurs in an execution over `env`.
`android_logger::init_once` has no failure path, so `LoggingInitFailure`
never occurs; the other two mirror the two `unwrap` sites. -/
def Failure.occursIn : Failure → DlEnv → Prop
  | .LoggingInitFailure, _ => False
  | .LibraryLoadFailure, env => env.load ≠ .ok
  | .SymbolResolutionFailure, env => env.load = .ok ∧ env.sym ≠ .ok

/-- Human-readable description of the failure an execution over `env` hits,
when it hits one: the description carried by the failing step. -/
def DlEnv.failureDesc (env : DlEnv) : Option String :=
  match env.load with
  | .notFound d => some d
  | .notMappable d => some d
  | .ok =>
    match env.sym with
    | .absent d => some d
    | .ok => none

/-- Trace and outcome when the library file is missing. -/
theorem runMain_notFound (d : String) (sy : SymResult) (b : Bool) :
    runMain ⟨.notFound d, sy, b⟩ =
      ([.logLine .Info "gpu_probe" "Starting pixel gpu_probe",
        .loadAttempt LIB_PATH,
        .logLine .Error "gpu_probe" (unwrapMsg d)], .exited 101) := rfl

/-- Trace and outcome when the library cannot be mapped. -/
theorem runMain_notMappable (d : String) (sy : SymResult) (b : Bool) :
    runMain ⟨.notMappable d, sy, b⟩ =
      ([.logLine .Info "gpu_probe" "Starting pixel gpu_probe",
        .loadAttempt LIB_PATH,
        .logLine .Error "gpu_probe" (unwrapMsg d)], .exited 101) := rfl

/-- Trace and outcome when the library loads but the entry symbol is absent. -/
theorem runMain_absent (d : String) (b : Bool) :
    runMain ⟨.ok, .absent d, b⟩ =
      ([.logLine .Info "gpu_probe" "Starting pixel gpu_probe",
        .loadAttempt LIB_PATH,
        .loadSuccess LIB_PATH,
        .symbolLookup ENTRY_SYMBOL,
        .logLine .Error "gpu_probe" (unwrapMsg d)], .exited 101) := rfl

/-- Trace and outcome on the happy path when the vendor entry function
returns. -/
theorem runMain_ok_returns :
    runMain ⟨.ok, .ok, true⟩ =
      ([.logLine .Info "gpu_probe" "Starting pixel gpu_probe",
        .loadAttempt LIB_PATH,
        .loadSuccess LIB_PATH,
        .symbolLookup ENTRY_SYMBOL,
        .symbolResolved ENTRY_SYMBOL,
        .callEntry,
        .dropLibrary LIB_PATH], .exited 0) := rfl

/-- Trace and outcome on the happy path when the vendor entry function
blocks forever. -/
theorem runMain_ok_blocks :
    runMain ⟨.ok, .ok, false⟩ =
      ([.logLine .Info "gpu_probe" "Starting pixel gpu_probe",
        .loadAttempt LIB_PATH,
        .loadSuccess LIB_PATH,
        .symbolLookup ENTRY_SYMBOL,
        .symbolResolved ENTRY_SYMBOL,
        .callEntry], .running) := rfl

/-- C1: for each of the three setup failure conditions (library file
missing, library cannot be mapped, entry symbol absent), the process
terminates with a non-zero exit status and the trace emitted before
termination contains at least one error-severity log line. -/
theorem setup_failure_exits_nonzero_with_error_log (env : DlEnv)
    (h : setupFails env) :
    (∃ c, (runMain env).2 = .exited c ∧ c ≠ 0) ∧
      hasErrorLine (runMain env).1 = true := by
  obtain ⟨l, sy, b⟩ := env
  cases l with
  | notFound d => exact ⟨⟨101, rfl, by decide⟩, rfl⟩
  | notMappable d => exact ⟨⟨101, rfl, by decide⟩, rfl⟩
  | ok =>
    cases sy with
    | absent d => exact ⟨⟨101, rfl, by decide⟩, rfl⟩
    | ok =>
      rcases h with ⟨d, hd⟩ | ⟨d, hd⟩ | ⟨d, hd⟩
      · exact LoadResult.noConfusion hd
      · exact LoadResult.noConfusion hd
      · exact SymResult.noConfusion hd

/-- Closed instance of C1 at a concrete environment whose library file is
missing. -/
theorem setup_failure_exits_nonzero_with_error_log_witness :
    setupFails ⟨.notFound "No such file or directory", .ok, false⟩ ∧
      ((∃ c, (runMain ⟨.notFound "No such file or directory", .ok, false⟩).2
            = .exited c ∧ c ≠ 0) ∧
        hasErrorLine
          (runMain ⟨.notFound "No such file or directory", .ok, false⟩).1
          = true) :=
  ⟨Or.inl ⟨"No such file or directory", rfl⟩,
    setup_failure_exits_nonzero_with_error_log
      ⟨.notFound "No such file or directory", .ok, false⟩
      (Or.inl ⟨"No such file or directory", rfl⟩)⟩

/-- C2: the entry function is invoked exactly when both the library load
and the symbol resolution succeeded (so calling an unresolved symbol is
structurally impossible), and no bootstrap failure falls through to success
behaviour: any failure ends the process with the panic status 101 instead
of reaching the success outcomes. -/
theorem entry_call_requires_load_and_resolution (env : DlEnv) :
    hasCall (runMain env).1 = (env.load == .ok && env.sym == .ok) ∧
      (runMain env).2 =
        (if env.load == .ok && env.sym == .ok then
          (if env.entryReturns then .exited 0 else .running)
        else .exited 101) := by
  obtain ⟨l, sy, b⟩ := env
  cases l <;> cases sy <;> cases b <;> exact ⟨rfl, rfl⟩

/-- C3: every occurring failure of the error taxonomy (logging init,
library load, symbol resolution) propagates to process termination with a
non-zero status, and the installed crash hook formats the failure
description into the panic message and emits it through the logging sink at
error severity before the process dies.  Logging initialisation has no
failure path in the code, so that case never occurs. -/
theorem taxonomy_failure_logged_then_fatal (f : Failure) (env : DlEnv)
    (h : f.occursIn env) :
    ∃ d, env.failureDesc = some d ∧
      Event.logLine .Error "gpu_probe" (unwrapMsg d) ∈ (runMain env).1 ∧
      ∃ c, (runMain env).2 = .exited c ∧ c ≠ 0 := by
  obtain ⟨l, sy, b⟩ := env
  cases f with
  | LoggingInitFailure => exact False.elim h
  | LibraryLoadFailure =>
    cases l with
    | ok => exact False.elim (h rfl)
    | notFound d =>
      refine ⟨d, rfl, ?_, 101, rfl, by decide⟩
      rw [runMain_notFound]
      simp
    | notMappable d =>
      refine ⟨d, rfl, ?_, 101, rfl, by decide⟩
      rw [runMain_notMappable]
      simp
  | SymbolResolutionFailure =>
    have h2 : l = .ok ∧ sy ≠ .ok := h
    obtain ⟨hl, hs⟩ := h2
    subst hl
    cases sy with
    | ok => exact False.elim (hs rfl)
    | absent d =>
      refine ⟨d, rfl, ?_, 101, rfl, by decide⟩
      rw [runMain_absent]
      simp

/-- Closed instance of C3 at a concrete environment whose library cannot be
mapped. -/
theorem taxonomy_failure_logged_then_fatal_witness :
    Failure.LibraryLoadFailure.occursIn ⟨.notMappable "wrong ELF class", .ok, true⟩ ∧
      (∃ d, (DlEnv.mk (.notMappable "wrong ELF class") .ok true).failureDesc = some d ∧
        Event.logLine .Error "gpu_probe" (unwrapMsg d)
          ∈ (runMain ⟨.notMappable "wrong ELF class", .ok, true⟩).1 ∧
        ∃ c, (runMain ⟨.notMappable "wrong ELF class", .ok, true⟩).2 = .exited c ∧ c ≠ 0) :=
  ⟨fun hcontra => LoadResult.noConfusion hcontra,
    taxonomy_failure_logged_then_fatal .LibraryLoadFailure
      ⟨.notMappable "wrong ELF class", .ok, true⟩
      (fun hcontra => LoadResult.noConfusion hcontra)⟩

/-- C4: in every execution the informational startup line
"Starting pixel gpu_probe" is emitted, a library-load attempt occurs, and
no library-load attempt precedes the startup line. -/
theorem startup_log_precedes_load (env : DlEnv) :
    Event.logLine .Info "gpu_probe" "Starting pixel gpu_probe" ∈ (runMain env).1 ∧
      Event.loadAttempt LIB_PATH ∈ (runMain env).1 ∧
      loadAttemptWithoutStartupLog (runMain env).1 = false := by
  obtain ⟨l, sy, b⟩ := env
  cases l <;> cases sy <;> cases b <;>
    refine ⟨by simp [runMain_notFound, runMain_notMappable, runMain_absent,
      runMain_ok_returns, runMain_ok_blocks],
      by simp [runMain_notFound, runMain_notMappable, runMain_absent,
        runMain_ok_returns, runMain_ok_blocks], rfl⟩

/-- C5: the vendor entry function is called at most once per process
lifetime, in every execution. -/
theorem entry_called_at_most_once (env : DlEnv) :
    countEntryCalls (runMain env).1 ≤ 1 := by
  obtain ⟨l, sy, b⟩ := env
  cases l <;> cases sy <;> cases b <;>
    first
    | exact Nat.zero_le 1
    | exact Nat.le_refl 1

/-- C6: when the library loads, the symbol resolves and the vendor entry
function returns, the bootstrap performs no further action and the process
exits with status 0, having emitted exactly one informational log line. -/
theorem entry_return_exits_zero (env : DlEnv)
    (h1 : env.load = .ok) (h2 : env.sym = .ok) (h3 : env.entryReturns = true) :
    (runMain env).2 = .exited 0 ∧ countInfoLines (runMain env).1 = 1 := by
  have he : env = ⟨.ok, .ok, true⟩ := by
    obtain ⟨l, sy, b⟩ := env
    simp only [DlEnv.mk.injEq]
    exact ⟨h1, h2, h3⟩
  rw [he]
  exact ⟨rfl, rfl⟩

/-- Closed instance of C6 at the happy-path environment. -/
theorem entry_return_exits_zero_witness :
    (DlEnv.mk .ok .ok true).load = .ok ∧ (DlEnv.mk .ok .ok true).sym = .ok ∧
      (DlEnv.mk .ok .ok true).entryReturns = true ∧
      ((runMain ⟨.ok, .ok, true⟩).2 = .exited 0 ∧
        countInfoLines (runMain ⟨.ok, .ok, true⟩).1 = 1) :=
  ⟨rfl, rfl, rfl, entry_return_exits_zero ⟨.ok, .ok, true⟩ rfl rfl rfl⟩

/-- C7: the library handle outlives the resolved symbol and the call made
through it: no execution releases the handle and then records an entry-call
through it, and the handle is only ever released as the very last event
before process exit (the implicit end-of-scope drop after the call
completes); there is no explicit release. -/
theorem handle_outlives_call (env : DlEnv) :
    releasedBeforeCall (runMain env).1 = false ∧
      dropNotLast (runMain env).1 = false := by
  obtain ⟨l, sy, b⟩ := env
  cases l <;> cases sy <;> cases b <;> exact ⟨rfl, rfl⟩

/-- C8: the bootstrap's behaviour is independent of the command-line
arguments and the environment variables: two runs differing only in those
produce identical traces and outcomes. -/
theorem behaviour_independent_of_args_and_env
    (a1 a2 : List String) (v1 v2 : List (String × String)) (env : DlEnv) :
    runProcess a1 v1 env = runProcess a2 v2 env := rfl

/-- C9: the fixed configuration constants are the library path
"/vendor/lib64/libgpudataproducer.so", the entry symbol name "start", the
log tag "gpu_probe" and the minimum severity `Info`, and every execution
uses exactly these values in every event it emits. -/
theorem fixed_configuration_constants :
    LIB_PATH = "/vendor/lib64/libgpudataproducer.so" ∧
      ENTRY_SYMBOL = "start" ∧
      gpuProbeConfig = ⟨some "gpu_probe", some .Info⟩ ∧
      ∀ env : DlEnv, usesFixedConfig (runMain env).1 = true := by
  refine ⟨rfl, rfl, rfl, ?_⟩
  intro env
  obtain ⟨l, sy, b⟩ := env
  cases l <;> cases sy <;> cases b <;> rfl

/-- C10: whenever both the library load and the symbol resolution succeed,
the vendor entry function is invoked exactly once. -/
theorem success_path_calls_entry_exactly_once (env : DlEnv)
    (h1 : env.load = .ok) (h2 : env.sym = .ok) :
    countEntryCalls (runMain env).1 = 1 := by
  obtain ⟨l, sy, b⟩ := env
  have hl : l = .ok := h1
  have hs : sy = .ok := h2
  subst hl; subst hs
  cases b <;> rfl

/-- Closed instance of C10 at the environment where load and resolution
succeed and the entry function blocks forever. -/
theorem success_path_calls_entry_exactly_once_witness :
    (DlEnv.mk .ok .ok false).load = .ok ∧ (DlEnv.mk .ok .ok false).sym = .ok ∧
      countEntryCalls (runMain ⟨.ok, .ok, false⟩).1 = 1 :=
  ⟨rfl, rfl, success_path_calls_entry_exactly_once ⟨.ok, .ok, false⟩ rfl rfl⟩

end GpuProbe
